import Mathlib

/-!
Verification development for the libvirtio guest driver core
(`src/virtio-blk.c`, which contains the block driver `virtioblk_*`,
the cpu barrier header, and the network driver `virtionet_*`).

The C code is shallowly embedded: machine integers are `Nat` reduced
modulo `2 ^ w` at the points where the C types truncate; the shared
virtqueue structures are explicit records; every driver entry point is a
pure function from the pre-state (plus the parameters the missing
collaborators would supply, such as allocation success) to the result,
the post-state and a trace of the externally visible events
(descriptor-table writes, available-ring writes, barriers, `avail.idx`
stores, queue notifications and device-status register writes).

Functions of this repository that are declared but whose implementation
is not under `src/` (`virtio_fill_desc`, `virtio_free_desc`,
`virtio_negotiate_guest_features`, `virtio_desc_addr`, constants from
`virtio.h` / `virtio-net.h`) are modelled from the specification; each
such definition says so in its doc comment.
-/

/-- Truncation to an unsigned 16-bit value, the effect of storing into a
`uint16_t` (and of the value-level reading of the 16-bit byte-order
conversions `virtio_cpu_to_modern16` / `virtio_modern16_to_cpu`). -/
def u16 (x : Nat) : Nat := x % 2 ^ 16

/-- Truncation to an unsigned 32-bit value (`uint32_t`). -/
def u32 (x : Nat) : Nat := x % 2 ^ 32

/-- Truncation to an unsigned 64-bit value (`uint64_t`). -/
def u64 (x : Nat) : Nat := x % 2 ^ 64

/-- The constant `DEFAULT_SECTOR_SIZE` from `src/virtio-blk.c`. -/
def DEFAULT_SECTOR_SIZE : Nat := 512

/-- Modelled from the spec: descriptor flag `VRING_DESC_F_NEXT`
(the header `virtio.h` is not under `src/`; the split-virtqueue layout
of section 3 of the spec fixes the standard values). -/
def VRING_DESC_F_NEXT : Nat := 1

/-- Modelled from the spec: descriptor flag `VRING_DESC_F_WRITE`. -/
def VRING_DESC_F_WRITE : Nat := 2

/-- Modelled from the spec: available-ring flag `VRING_AVAIL_F_NO_INTERRUPT`. -/
def VRING_AVAIL_F_NO_INTERRUPT : Nat := 1

/-- Device status bit ACKNOWLEDGE = 1 (spec section 3, Device status). -/
def VIRTIO_STAT_ACKNOWLEDGE : Nat := 1

/-- Device status bit DRIVER = 2. -/
def VIRTIO_STAT_DRIVER : Nat := 2

/-- Device status bit DRIVER_OK = 4. -/
def VIRTIO_STAT_DRIVER_OK : Nat := 4

/-- Device status bit FEATURES_OK = 8. -/
def VIRTIO_STAT_FEATURES_OK : Nat := 8

/-- Device status bit FAILED = 128. -/
def VIRTIO_STAT_FAILED : Nat := 128

/-- Feature bit index of `VIRTIO_F_VERSION_1` (bit 32). -/
def VIRTIO_F_VERSION_1_BIT : Nat := 32

/-- Feature bit index of `VIRTIO_BLK_F_BLK_SIZE` (bit 6). -/
def VIRTIO_BLK_F_BLK_SIZE_BIT : Nat := 6

/-- Receive queue index `VQ_RX` of the network device. -/
def VQ_RX : Nat := 0

/-- Transmit queue index `VQ_TX` of the network device. -/
def VQ_TX : Nat := 1

/-- Modelled from the spec: the compile-time constant `BUFFER_ENTRY_SIZE`
(declared in `virtio-net.h`, which is not under `src/`; the spec gives
the example value 1526 = Ethernet MTU + margin). -/
def BUFFER_ENTRY_SIZE : Nat := 1526

/-- Size in bytes of `struct virtio_blk_req`: `type : u32`,
`reserved : u32`, `sector : u64`. -/
def blk_req_size : Nat := 16

/-- One externally visible event of a driver entry point, in program
order: a descriptor-table write (queue, slot), an available-ring entry
write (queue, slot, value), a full memory barrier (`mb()` / `sync()`,
`dsb sy`), an `avail.idx` store (queue, new value), a queue
notification, a device-status register write, a write into a queue
buffer pool (the `memcpy` of a transmit payload), or a queue-ready
register write. -/
inductive Event where
  | descWrite (q slot : Nat)
  | ringWrite (q slot val : Nat)
  | barrier
  | idxWrite (q val : Nat)
  | notify (q : Nat)
  | statusWrite (v : Nat)
  | bufWrite (q : Nat)
  | ready (q : Nat)
  deriving DecidableEq, Repr

/-- One split-virtqueue descriptor-table entry:
`addr : u64`, `len : u32`, `flags : u16`, `next : u16`. -/
structure Desc where
  addr : Nat
  len : Nat
  flags : Nat
  next : Nat
  deriving DecidableEq, Repr

instance : Inhabited Desc := ⟨⟨0, 0, 0, 0⟩⟩

/-- The guest-side view of one virtqueue (`struct vqs`): size `Q`, the
descriptor table, the available ring (flags, free-running 16-bit index,
ring of 16-bit ids), the used ring (host-written 16-bit index and ring
of id/len pairs), and the queue's buffer-pool base address `buf_mem`. -/
structure Vq where
  size : Nat
  desc : List Desc
  availFlags : Nat
  availIdx : Nat
  availRing : List Nat
  usedIdx : Nat
  usedRing : List (Nat × Nat)
  bufMem : Nat
  deriving DecidableEq, Repr

/-- Modelled from the spec: `virtio_fill_desc` (declared in `virtio.h`,
implementation not under `src/`) writes one descriptor entry
addr/len/flags/next at index `id` through the byte-order adapter.  At
value level the little-endian conversion is the identity; the fields are
truncated to their declared widths `u64`/`u32`/`u16`/`u16`. -/
def virtio_fill_desc (vq : Vq) (id : Nat) (addr len flags next : Nat) : Vq :=
  { vq with desc := vq.desc.set id ⟨u64 addr, u32 len, u16 flags, u16 next⟩ }

/-- Modelled from the spec: `virtio_free_desc` marks a descriptor slot
reusable with an implementation-defined sentinel; in `virtionet_xmit`
both freed slots are immediately rewritten by `virtio_fill_desc`, so the
sentinel itself is modelled as leaving the entry unchanged. -/
def virtio_free_desc (vq : Vq) (id : Nat) : Vq :=
  { vq with desc := vq.desc.set id (vq.desc.getD id default) }

/-- The block device configuration region (`struct virtio_blk_cfg`):
`capacity : u64` at offset 0 and `blk_size : u32` at offset 20, as read
by `virtio_get_config`. -/
structure VirtioBlkCfg where
  capacity : Nat
  blk_size : Nat
  deriving DecidableEq, Repr

/-- The state a block-driver call sees: the device's guest feature word
`dev->features` (u64), the host feature word returned by
`virtio_get_host_features`, the configuration region, and queue 0. -/
structure BlkDevice where
  features : Nat
  hostFeatures : Nat
  cfg : VirtioBlkCfg
  vq : Vq
  deriving DecidableEq, Repr

/-- The request header `struct virtio_blk_req` as written by
`fill_blk_hdr`: the numeric values of the `type` and `sector` fields
and whether they were stored little-endian (`cpu_to_le32`/`cpu_to_le64`)
rather than guest-native. -/
structure BlkReqHdr where
  typ : Nat
  sector : Nat
  le : Bool
  deriving DecidableEq, Repr

/-- Embedding of `fill_blk_hdr` (src/virtio-blk.c lines 97-109).  The C
parameters `type`, `ioprio` and `sector` are `uint32_t`, so the caller's
64-bit sector expression is truncated to 32 bits here; `ioprio` is dead
(the store is commented out in the source).  When `is_modern` the fields
go through `cpu_to_le32`/`cpu_to_le64`, recorded in the `le` flag. -/
def fill_blk_hdr (is_modern : Bool) (type _ioprio sector : Nat) : BlkReqHdr :=
  if is_modern then
    ⟨u32 type, u32 sector, true⟩
  else
    ⟨u32 type, u32 sector, false⟩

/-- Result of `virtioblk_transfer`: the C return value, the header
written into `data->blkhdr` (`none` when a check rejected the request
before the header store), the post-state of the device, and the event
trace. -/
structure BlkTransferResult where
  ret : Nat
  hdr : Option BlkReqHdr
  dev : BlkDevice
  trace : List Event
  deriving DecidableEq, Repr

/-- Sign extension of a 32-bit value to 64 bits: the effect of
converting the signed `int blk_size` of `virtioblk_transfer` to
`uint64_t` when it multiplies the `uint64_t` block number (line 150) -
a configured value at or above `2 ^ 31` is a negative `int` and
sign-extends. -/
def sext32_64 (x : Nat) : Nat :=
  if x < 2 ^ 31 then x else x + (2 ^ 64 - 2 ^ 32)

/-- Embedding of `virtioblk_transfer` (src/virtio-blk.c lines 120-179).
`blocknum` is the `uint64_t` argument and `cnt` the value of the `long`
argument after conversion to `uint64_t` (all arithmetic of the capacity
check is in `uint64_t`); `type` is the `unsigned int` request type.
The capacity check `blocknum + cnt - 1 > capacity` and the sector-size
alignment check reject by returning 0 with no state change (a negative
`blk_size` passes the signed `% 512` check exactly when its 32-bit
pattern does, so the unsigned check is faithful).  Otherwise the code
reads `avail->idx`, reduces it modulo the queue size (line 146), fills
the header - the sector operand `blk_size` is a signed `int` and
sign-extends into the 64-bit product (`sext32_64`) - and the
three-descriptor chain at `id = (avail_idx * 3) % size` (the data
length reaches its `u32` field modulo `2 ^ 32`, where sign extension
by a multiple of `2 ^ 32` is invisible), writes the available-ring
entry, issues one `mb()`, stores `avail_idx + 1` into `avail->idx` and
notifies queue 0 with no second barrier. -/
def virtioblk_transfer (dev : BlkDevice) (blocknum cnt type hdr_pa buf_pa status_pa : Nat) :
    BlkTransferResult :=
  if u64 (u64 blocknum + u64 cnt + (2 ^ 64 - 1)) > u64 dev.cfg.capacity then
    ⟨0, none, dev, []⟩
  else
    if u32 dev.cfg.blk_size % DEFAULT_SECTOR_SIZE ≠ 0 then
      ⟨0, none, dev, []⟩
    else
      let blk_size := u32 dev.cfg.blk_size
      let type := u32 type
      let vq := dev.vq
      let avail_idx := u16 vq.availIdx % vq.size
      let hdr := fill_blk_hdr (dev.features != 0) type 1
        (u64 (u64 blocknum * sext32_64 blk_size) / DEFAULT_SECTOR_SIZE)
      let id := (avail_idx * 3) % vq.size
      let vq := virtio_fill_desc vq id hdr_pa blk_req_size VRING_DESC_F_NEXT (id + 1)
      let vq := virtio_fill_desc vq (id + 1) buf_pa (u64 cnt * blk_size)
        (VRING_DESC_F_NEXT + (if type % 2 = 1 then 0 else VRING_DESC_F_WRITE)) (id + 2)
      let vq := virtio_fill_desc vq (id + 2) status_pa 1 VRING_DESC_F_WRITE 0
      let vq := { vq with availRing := vq.availRing.set (avail_idx % vq.size) (u16 id) }
      let vq := { vq with availIdx := u16 (avail_idx + 1) }
      ⟨0, some hdr, { dev with vq := vq },
        [Event.descWrite 0 id, Event.descWrite 0 (id + 1), Event.descWrite 0 (id + 2),
         Event.ringWrite 0 (avail_idx % dev.vq.size) (u16 id), Event.barrier,
         Event.idxWrite 0 (u16 (avail_idx + 1)), Event.notify 0]⟩

/-- Result of `virtioblk_init`: the C return value (the sector size, or
0 on failure) and the trace of device-status register writes. -/
structure BlkInitResult where
  ret : Nat
  trace : List Event
  deriving DecidableEq, Repr

/-- Embedding of `virtioblk_init` (src/virtio-blk.c lines 30-80); the
trace records the status-register writes.  `virtio_reset_device` writes
status 0; then ACKNOWLEDGE (1) and ACKNOWLEDGE|DRIVER (3) are set.  For
a modern device (`dev->features` has bit 32) the missing
`virtio_negotiate_guest_features` is modelled from the spec: it writes
the guest features, sets FEATURES_OK (status 3|8 = 11) and fails (for
us: when `negOk` is false) if the host cleared it, in which case
`dev_error` ORs FAILED into the local status 3; on success
`virtio_get_status` reloads status = 11.  For a legacy device
`virtio_set_guest_features` writes no status.  `virtio_queue_init_vq`
(not under `src/`, success given by `vqOk`) writes no status per the
spec's `init_vq`.  On queue failure FAILED is ORed in; on success
DRIVER_OK is ORed in and the returned sector size is the configured
`blk_size` when the HOST feature word has `VIRTIO_BLK_F_BLK_SIZE`,
otherwise the default 512 - with no alignment check on it. -/
def virtioblk_init (dev : BlkDevice) (negOk vqOk : Bool) : BlkInitResult :=
  let t : List Event := [Event.statusWrite 0,
    Event.statusWrite VIRTIO_STAT_ACKNOWLEDGE,
    Event.statusWrite (VIRTIO_STAT_ACKNOWLEDGE ||| VIRTIO_STAT_DRIVER)]
  if dev.features.testBit VIRTIO_F_VERSION_1_BIT then
    if negOk then
      let status := VIRTIO_STAT_ACKNOWLEDGE ||| VIRTIO_STAT_DRIVER ||| VIRTIO_STAT_FEATURES_OK
      let t := t ++ [Event.statusWrite status]
      if vqOk then
        ⟨if dev.hostFeatures.testBit VIRTIO_BLK_F_BLK_SIZE_BIT then u32 dev.cfg.blk_size
          else DEFAULT_SECTOR_SIZE,
         t ++ [Event.statusWrite (status ||| VIRTIO_STAT_DRIVER_OK)]⟩
      else
        ⟨0, t ++ [Event.statusWrite (status ||| VIRTIO_STAT_FAILED)]⟩
    else
      ⟨0, t ++ [Event.statusWrite (VIRTIO_STAT_ACKNOWLEDGE ||| VIRTIO_STAT_DRIVER |||
        VIRTIO_STAT_FAILED)]⟩
  else
    let status := VIRTIO_STAT_ACKNOWLEDGE ||| VIRTIO_STAT_DRIVER
    if vqOk then
      ⟨if dev.hostFeatures.testBit VIRTIO_BLK_F_BLK_SIZE_BIT then u32 dev.cfg.blk_size
        else DEFAULT_SECTOR_SIZE,
       t ++ [Event.statusWrite (status ||| VIRTIO_STAT_DRIVER_OK)]⟩
    else
      ⟨0, t ++ [Event.statusWrite (status ||| VIRTIO_STAT_FAILED)]⟩

/-- The sequence of device-status values written in a trace. -/
def statusTrace (t : List Event) : List Nat :=
  t.filterMap fun e =>
    match e with
    | Event.statusWrite v => some v
    | _ => none

/-- The state of one virtio-net driver instance (`struct virtio_net`
plus the module-level variables of src/virtio-blk.c's net part):
the device feature word, the `driver.running` flag, the 6 configuration
bytes holding the MAC, the MAC copied into the driver, the RX and TX
queues, and the cursors `last_rx_idx` / `last_tx_idx` and the header
size `net_hdr_size` (globals in the source, attached here to the single
instance). -/
structure VirtioNet where
  features : Nat
  running : Nat
  macCfg : List Nat
  mac : List Nat
  rx : Vq
  tx : Vq
  last_rx_idx : Nat
  last_tx_idx : Nat
  net_hdr_size : Nat
  deriving DecidableEq, Repr

/-- Modelled from the spec: `virtio_queue_init_vq` (not under `src/`)
selects the queue, reads its size, allocates and zeroes the ring
region and publishes the addresses; the queue state it hands back is
all-zero rings of the device-given size. -/
def virtio_queue_init_vq (vq : Vq) : Vq :=
  { size := u16 vq.size,
    desc := List.replicate (u16 vq.size) default,
    availFlags := 0, availIdx := 0,
    availRing := List.replicate (u16 vq.size) 0,
    usedIdx := 0,
    usedRing := List.replicate (u16 vq.size) (0, 0),
    bufMem := vq.bufMem }

/-- One iteration of the RX pre-post loop of `virtionet_init`
(src/virtio-blk.c lines 421-434): descriptor `2i` covers the net header
at `base + i * (BUFFER_ENTRY_SIZE + hdrSize)` with flags NEXT|WRITE
chaining to `2i + 1`, descriptor `2i + 1` covers the data area with
flag WRITE, and `avail.ring[i]` receives the chain head `2i`. -/
def rxPrepostStep (hdrSize base : Nat) (vq : Vq) (i : Nat) : Vq :=
  let addr := base + i * (BUFFER_ENTRY_SIZE + hdrSize)
  let id := i * 2
  let vq := virtio_fill_desc vq id addr hdrSize
    (VRING_DESC_F_NEXT ||| VRING_DESC_F_WRITE) (id + 1)
  let vq := virtio_fill_desc vq (id + 1) (addr + hdrSize) BUFFER_ENTRY_SIZE
    VRING_DESC_F_WRITE 0
  { vq with availRing := vq.availRing.set i (u16 id) }

/-- The RX pre-post loop run for `i = 0, ..., n-1` in program order. -/
def rxPrepost (hdrSize base : Nat) : Nat → Vq → Vq
  | 0, vq => vq
  | n + 1, vq => rxPrepostStep hdrSize base (rxPrepost hdrSize base n vq) n

/-- The events emitted by the RX pre-post loop. -/
def rxPrepostTrace : Nat → List Event
  | 0 => []
  | n + 1 => rxPrepostTrace n ++
      [Event.descWrite VQ_RX (n * 2), Event.descWrite VQ_RX (n * 2 + 1),
       Event.ringWrite VQ_RX n (u16 (n * 2))]

/-- Tail of `virtionet_init` common to the legacy and modern branches,
starting at the queue initialization (src/virtio-blk.c lines 391-463):
RX/TX queue init (success given by `vqOk`), the two buffer-pool
allocations (success given by `allocRxOk` / `allocTxOk`, the returned
bases by `rxBase` / `txBase`), the RX pre-post loop, `sync()`, the RX
avail flags/idx stores, the cursor reload, the TX avail setup, the
final status write ORing DRIVER_OK and FEATURES_OK into `status`
unconditionally, queue-ready and notify on RX, `running = 1` and the
MAC read. -/
def virtionet_init_tail (vnet : VirtioNet) (status : Nat) (t : List Event)
    (rxBase txBase : Nat) (vqOk allocRxOk allocTxOk : Bool) :
    Int × VirtioNet × List Event :=
  if !vqOk then
    (-1, vnet, t ++ [Event.statusWrite (VIRTIO_STAT_ACKNOWLEDGE ||| VIRTIO_STAT_DRIVER |||
      VIRTIO_STAT_FAILED)])
  else
    let vq_rx := virtio_queue_init_vq vnet.rx
    let vq_tx := virtio_queue_init_vq vnet.tx
    let queue_size := vq_rx.size
    if !allocRxOk then
      (-1, { vnet with rx := { vq_rx with bufMem := 0 }, tx := vq_tx },
        t ++ [Event.statusWrite (status ||| VIRTIO_STAT_FAILED)])
    else
      let vq_rx := { vq_rx with bufMem := rxBase }
      if !allocTxOk then
        (-1, { vnet with rx := vq_rx, tx := { vq_tx with bufMem := 0 } },
          t ++ [Event.statusWrite (status ||| VIRTIO_STAT_FAILED)])
      else
        let vq_tx := { vq_tx with bufMem := txBase }
        let vq_rx := rxPrepost vnet.net_hdr_size rxBase (queue_size / 2) vq_rx
        let t := t ++ rxPrepostTrace (queue_size / 2) ++ [Event.barrier]
        let vq_rx := { vq_rx with availFlags := 0, availIdx := u16 (queue_size / 2) }
        let t := t ++ [Event.idxWrite VQ_RX (u16 (queue_size / 2))]
        let last_rx := u16 vq_rx.usedIdx
        let vq_tx := { vq_tx with availFlags := VRING_AVAIL_F_NO_INTERRUPT, availIdx := 0 }
        let t := t ++ [Event.idxWrite VQ_TX 0]
        let status := status ||| VIRTIO_STAT_DRIVER_OK ||| VIRTIO_STAT_FEATURES_OK
        let t := t ++ [Event.statusWrite status, Event.ready VQ_RX, Event.notify VQ_RX]
        let vnet := { vnet with rx := vq_rx, tx := vq_tx, last_rx_idx := last_rx }
        (0, { vnet with running := 1, mac := vnet.macCfg.take 6 }, t)

/-- Embedding of `virtionet_init` (src/virtio-blk.c lines 355-469).
If `driver.running` is nonzero it returns 0 at once with no write.
Otherwise it writes status ACKNOWLEDGE|DRIVER, then for a modern device
runs the spec-modelled feature negotiation (success given by `negOk`;
it sets FEATURES_OK, giving status 11, and on failure FAILED is ORed
into the still-local status 3) and sets `net_hdr_size` to 12; for a
legacy device it sets `net_hdr_size` to 10 and writes guest features 0
with no status write.  Then the common tail runs. -/
def virtionet_init (vnet : VirtioNet) (rxBase txBase : Nat)
    (negOk vqOk allocRxOk allocTxOk : Bool) : Int × VirtioNet × List Event :=
  if vnet.running ≠ 0 then
    (0, vnet, [])
  else
    let t : List Event := [Event.statusWrite (VIRTIO_STAT_ACKNOWLEDGE ||| VIRTIO_STAT_DRIVER)]
    if vnet.features.testBit VIRTIO_F_VERSION_1_BIT then
      if !negOk then
        (-1, vnet, t ++ [Event.statusWrite (VIRTIO_STAT_ACKNOWLEDGE ||| VIRTIO_STAT_DRIVER |||
          VIRTIO_STAT_FAILED)])
      else
        let vnet := { vnet with net_hdr_size := 12 }
        let status := VIRTIO_STAT_ACKNOWLEDGE ||| VIRTIO_STAT_DRIVER ||| VIRTIO_STAT_FEATURES_OK
        virtionet_init_tail vnet status (t ++ [Event.statusWrite status])
          rxBase txBase vqOk allocRxOk allocTxOk
    else
      let vnet := { vnet with net_hdr_size := 10 }
      virtionet_init_tail vnet (VIRTIO_STAT_ACKNOWLEDGE ||| VIRTIO_STAT_DRIVER) t
        rxBase txBase vqOk allocRxOk allocTxOk

/-- Embedding of `virtionet_init_mmio` + `virtionet_open`
(src/virtio-blk.c lines 329-348 and 650-680; `VIRTIO_USE_MMIO` is the
configuration selected by src/CMakeLists.txt).  A fresh instance with
`running = 0` is allocated, the device is reset (status write 0) and
acknowledged (status write 1), then `virtionet_init` runs; on failure
the instance is freed and `none` returned. -/
def virtionet_open (features : Nat) (macCfg : List Nat) (rx tx : Vq)
    (rxBase txBase : Nat) (negOk vqOk allocRxOk allocTxOk : Bool) :
    Option VirtioNet × List Event :=
  let vnet : VirtioNet :=
    { features := features, running := 0, macCfg := macCfg, mac := [],
      rx := rx, tx := tx, last_rx_idx := 0, last_tx_idx := 0, net_hdr_size := 0 }
  let t : List Event := [Event.statusWrite 0, Event.statusWrite VIRTIO_STAT_ACKNOWLEDGE]
  let r := virtionet_init vnet rxBase txBase negOk vqOk allocRxOk allocTxOk
  if r.1 = 0 then (some r.2.1, t ++ r.2.2) else (none, t ++ r.2.2)

/-- Embedding of `virtionet_term` (src/virtio-blk.c lines 477-505).
When `driver.running` is 0 it returns 0 with no effect; otherwise it
writes FAILED, resets the device (status write 0), clears `running`,
frees the RX pool and nulls both pool pointers (the spec-modelled
`virtio_queue_term_vq`, not under `src/`, unpublishes the queues
without touching this guest-side state). -/
def virtionet_term (vnet : VirtioNet) : Int × VirtioNet × List Event :=
  if vnet.running = 0 then
    (0, vnet, [])
  else
    let vnet := { vnet with running := 0, rx := { vnet.rx with bufMem := 0 } }
    (0, { vnet with tx := { vnet.tx with bufMem := 0 } },
     [Event.statusWrite VIRTIO_STAT_FAILED, Event.statusWrite 0])

/-- Embedding of `virtionet_xmit` (src/virtio-blk.c lines 511-560).
Packets longer than `BUFFER_ENTRY_SIZE` are rejected with return 0 and
no effect.  Otherwise the free-running `avail.idx` of the TX queue is
read (no reduction), the chain head is `id = (idx * 2) % size`, the
payload is copied into the TX pool, both descriptors are freed and
refilled (the zeroed static net header lives at a fixed address,
modelled as 0), the avail-ring entry gets `id`, `sync()`,
`avail.idx = idx + 1` (16-bit store), `sync()`, the TX used index is
latched into `last_tx_idx`, and TX is notified; the packet length is
returned. -/
def virtionet_xmit (vnet : VirtioNet) (len : Nat) : Int × VirtioNet × List Event :=
  if len > BUFFER_ENTRY_SIZE then
    (0, vnet, [])
  else
    let vq := vnet.tx
    let idx := u16 vq.availIdx
    let id := (idx * 2) % vq.size
    let buf_index := (idx * 2) % (vq.size / 2)
    let buf_addr := vq.bufMem + (buf_index / 2) * BUFFER_ENTRY_SIZE
    let vq := virtio_free_desc vq id
    let vq := virtio_free_desc vq (id + 1)
    let vq := virtio_fill_desc vq id 0 vnet.net_hdr_size VRING_DESC_F_NEXT (id + 1)
    let vq := virtio_fill_desc vq (id + 1) buf_addr len 0 0
    let vq := { vq with availRing := vq.availRing.set (idx % vq.size) (u16 id) }
    let vq := { vq with availIdx := u16 (idx + 1) }
    let vnet := { vnet with tx := vq, last_tx_idx := u16 vq.usedIdx }
    (len, vnet,
      [Event.bufWrite VQ_TX,
       Event.descWrite VQ_TX id, Event.descWrite VQ_TX (id + 1),
       Event.descWrite VQ_TX id, Event.descWrite VQ_TX (id + 1),
       Event.ringWrite VQ_TX (idx % vnet.tx.size) (u16 id), Event.barrier,
       Event.idxWrite VQ_TX (u16 (idx + 1)), Event.barrier,
       Event.notify VQ_TX])

/-- Result of `virtionet_receive`: the C return value, the address the
payload was copied from (`none` when nothing was pending), the
post-state and the event trace. -/
structure NetRecvResult where
  ret : Int
  srcAddr : Option Nat
  vnet : VirtioNet
  trace : List Event
  deriving DecidableEq, Repr

/-- Embedding of `virtionet_receive` (src/virtio-blk.c lines 584-648).
If `used.idx` equals `last_rx_idx` nothing is pending and 0 is
returned.  Otherwise the used entry at `last_rx_idx % size` is read:
the payload descriptor is `id = (entry.id + 1) % size` and the length
is `entry.len - net_hdr_size` (32-bit arithmetic), clamped to `maxlen`.
The payload is copied from the address of descriptor `id` (the
spec-modelled `virtio_desc_addr`, not under `src/`, reads
`desc[id].addr`).  Then `last_rx_idx` advances by one, the replenishing
avail entry at `avail.idx % size` is written with `id - 1` computed in
`uint32_t` and truncated to 16 bits, `sync()`, `avail.idx` advances by
one (16-bit store) and RX is notified; the copied length is returned. -/
def virtionet_receive (vnet : VirtioNet) (maxlen : Nat) : NetRecvResult :=
  if vnet.last_rx_idx = u16 vnet.rx.usedIdx then
    ⟨0, none, vnet, []⟩
  else
    let vq := vnet.rx
    let entry := vq.usedRing.getD (vnet.last_rx_idx % vq.size) (0, 0)
    let id := (u32 entry.1 + 1) % vq.size
    let len0 := u32 (u32 entry.2 + (2 ^ 32 - vnet.net_hdr_size % 2 ^ 32))
    let len := if len0 > u32 maxlen then u32 maxlen else len0
    let src := (vq.desc.getD id default).addr
    let avail_idx := u16 vq.availIdx
    let repl := u16 (u32 (id + (2 ^ 32 - 1)))
    let vq := { vq with availRing := vq.availRing.set (avail_idx % vq.size) repl }
    let vq := { vq with availIdx := u16 (avail_idx + 1) }
    ⟨len, some src,
     { vnet with rx := vq, last_rx_idx := u16 (vnet.last_rx_idx + 1) },
     [Event.ringWrite VQ_RX (avail_idx % vnet.rx.size) repl, Event.barrier,
      Event.idxWrite VQ_RX (u16 (avail_idx + 1)), Event.notify VQ_RX]⟩

/-- Embedding of `virtionet_read` (src/virtio-blk.c lines 690-695): a
`NULL` instance or buffer pointer (modelled by `none` / `bufNull`)
yields -1 with no effect; otherwise `virtionet_receive` runs. -/
def virtionet_read (vnet : Option VirtioNet) (bufNull : Bool) (maxlen : Nat) :
    Int × Option VirtioNet × List Event :=
  match vnet, bufNull with
  | some v, false =>
    let r := virtionet_receive v maxlen
    (r.ret, some r.vnet, r.trace)
  | _, _ => (-1, vnet, [])

/-- Embedding of `virtionet_write` (src/virtio-blk.c lines 697-702): a
`NULL` instance or buffer pointer yields -1 with no effect; otherwise
`virtionet_xmit` runs. -/
def virtionet_write (vnet : Option VirtioNet) (bufNull : Bool) (len : Nat) :
    Int × Option VirtioNet × List Event :=
  match vnet, bufNull with
  | some v, false =>
    let r := virtionet_xmit v len
    (r.1, some r.2.1, r.2.2)
  | _, _ => (-1, vnet, [])

/-- Scan of an event trace checking that every descriptor-table or
available-ring write is separated from any later `avail.idx` store by a
full barrier; the accumulator records whether such a write has been seen
since the last barrier. -/
def writesFencedBeforeIdx : List Event → Bool → Bool
  | [], _ => true
  | Event.descWrite _ _ :: r, _ => writesFencedBeforeIdx r true
  | Event.ringWrite _ _ _ :: r, _ => writesFencedBeforeIdx r true
  | Event.barrier :: r, _ => writesFencedBeforeIdx r false
  | Event.idxWrite _ _ :: r, p => !p && writesFencedBeforeIdx r p
  | _ :: r, p => writesFencedBeforeIdx r p

/-- Scan of an event trace checking that every `avail.idx` store is
separated from any later queue notification by a full barrier; the
accumulator records whether an `avail.idx` store has been seen since
the last barrier. -/
def idxFencedBeforeNotify : List Event → Bool → Bool
  | [], _ => true
  | Event.idxWrite _ _ :: r, _ => idxFencedBeforeNotify r true
  | Event.barrier :: r, _ => idxFencedBeforeNotify r false
  | Event.notify _ :: r, p => !p && idxFencedBeforeNotify r p
  | _ :: r, p => idxFencedBeforeNotify r p

/-- An all-zero virtqueue of size `n`, used for concrete instances. -/
def vq0 (n : Nat) : Vq :=
  { size := n, desc := List.replicate n default, availFlags := 0, availIdx := 0,
    availRing := List.replicate n 0, usedIdx := 0,
    usedRing := List.replicate n (0, 0), bufMem := 0 }

/-- A concrete idle net instance used by concrete evaluations. -/
def vnetW : VirtioNet :=
  { features := 0, running := 0, macCfg := [], mac := [], rx := vq0 4, tx := vq0 4,
    last_rx_idx := 0, last_tx_idx := 0, net_hdr_size := 10 }

/-- The block device of the C5 scenario and failing input: capacity 10,
512-byte sectors, queue size 6. -/
def devC5 : BlkDevice := ⟨0, 0, ⟨10, 512⟩, vq0 6⟩

/-- Claim C5 (counterexample): at `start_block = 2 ^ 64 - 1, count = 2`
the claim's condition holds - `start_block + count - 1 = 2 ^ 64`
exceeds the capacity 10 - yet the `uint64_t` expression of the check
wraps to 0, the call proceeds and submits: the trace is non-empty and
ends in a notify, and `avail.idx` advances from 0 to 1, refuting the
claim for this call. -/
theorem C5_counterexample_wrapping_request_submitted :
    ((2 ^ 64 - 1 : Nat) + 2 - 1 > 10) ∧
    (virtioblk_transfer devC5 (2 ^ 64 - 1) 2 0 0 0 0).trace ≠ [] ∧
    Event.notify 0 ∈ (virtioblk_transfer devC5 (2 ^ 64 - 1) 2 0 0 0 0).trace ∧
    (virtioblk_transfer devC5 (2 ^ 64 - 1) 2 0 0 0 0).dev.vq.availIdx = 1 ∧
    devC5.vq.availIdx = 0 := by
  refine ⟨by decide, by decide, by decide, by decide, by decide⟩

/-- Claim C5 (amended): whenever the capacity-check expression
`start_block + count - 1` computed in `uint64_t` (wrapping at `2 ^ 64`,
like the source expression) exceeds the capacity, the call fails
returning 0 and modifies no descriptor-table entry, available-ring
entry, `avail.idx`, or device register: the post-state is the
pre-state, the header is not written and the event trace is empty.
For `count >= 1` with `start_block + count - 1 < 2 ^ 64` this wrapped
condition coincides with the claim's mathematical one (second
conjunct); a request whose sum wraps past `2 ^ 64` is erroneously
accepted and submitted (the counterexample). -/
theorem C5_amended_out_of_range_rejected (dev : BlkDevice)
    (blocknum cnt type hdr_pa buf_pa status_pa : Nat)
    (h : u64 (u64 blocknum + u64 cnt + (2 ^ 64 - 1)) > u64 dev.cfg.capacity) :
    virtioblk_transfer dev blocknum cnt type hdr_pa buf_pa status_pa =
      ⟨0, none, dev, []⟩ ∧
    (1 ≤ cnt → blocknum < 2 ^ 64 → cnt < 2 ^ 64 → blocknum + cnt - 1 < 2 ^ 64 →
      dev.cfg.capacity < 2 ^ 64 →
      (u64 (u64 blocknum + u64 cnt + (2 ^ 64 - 1)) > u64 dev.cfg.capacity ↔
        blocknum + cnt - 1 > dev.cfg.capacity)) := by
  constructor
  · unfold virtioblk_transfer
    rw [if_pos h]
  · intro h1 hb hc hno hcap
    have e2 : u64 (u64 blocknum + u64 cnt + (2 ^ 64 - 1)) = blocknum + cnt - 1 := by
      simp only [u64, Nat.mod_eq_of_lt hb, Nat.mod_eq_of_lt hc]
      have e : blocknum + cnt + (2 ^ 64 - 1) = (blocknum + cnt - 1) + 1 * 2 ^ 64 := by
        omega
      rw [e, Nat.add_mul_mod_self_right, Nat.mod_eq_of_lt hno]
    rw [e2]
    simp only [u64]
    rw [Nat.mod_eq_of_lt hcap]

/-- Witness for C5 (amended) at the spec's own scenario: capacity 10,
request `start_block = 8, count = 5` is rejected with the device
intact. -/
theorem C5_amended_out_of_range_rejected_witness :
    virtioblk_transfer devC5 8 5 0 0 0 0 = ⟨0, none, devC5, []⟩ ∧
    (1 ≤ 5 → (8 : Nat) < 2 ^ 64 → (5 : Nat) < 2 ^ 64 → (8 : Nat) + 5 - 1 < 2 ^ 64 →
      devC5.cfg.capacity < 2 ^ 64 →
      (u64 (u64 8 + u64 5 + (2 ^ 64 - 1)) > u64 devC5.cfg.capacity ↔
        (8 : Nat) + 5 - 1 > devC5.cfg.capacity)) :=
  C5_amended_out_of_range_rejected devC5 8 5 0 0 0 0 (by decide)

/-- Claim C9: `virtionet_read` and `virtionet_write` called with a NULL
instance pointer or a NULL buffer pointer return -1, leave the instance
unchanged and touch no ring, descriptor, buffer, or device register
(empty event trace). -/
theorem C9_null_pointer_guard (vnet : Option VirtioNet) (bufNull : Bool)
    (maxlen len : Nat) (h : vnet = none ∨ bufNull = true) :
    virtionet_read vnet bufNull maxlen = (-1, vnet, []) ∧
    virtionet_write vnet bufNull len = (-1, vnet, []) := by
  rcases h with h | h
  · subst h; exact ⟨rfl, rfl⟩
  · subst h; cases vnet <;> exact ⟨rfl, rfl⟩

/-- Witness for C9 at a NULL instance pointer. -/
theorem C9_null_pointer_guard_witness :
    virtionet_read none true 64 = (-1, none, []) ∧
    virtionet_write none true 64 = (-1, none, []) :=
  C9_null_pointer_guard none true 64 64 (Or.inl rfl)

/-- Claim C10: the net driver's `running` flag guards initialization
and teardown: `virtionet_term` with `running = 0` returns 0 leaving the
whole instance (status, queues, buffer pools) unchanged and writing
nothing, and `virtionet_init` with `running` nonzero returns 0 with no
device write, so repeated open/close calls are no-ops after the
first. -/
theorem C10_running_flag_guard (vnet : VirtioNet) (rxBase txBase : Nat)
    (negOk vqOk allocRxOk allocTxOk : Bool) :
    (vnet.running = 0 → virtionet_term vnet = (0, vnet, [])) ∧
    (vnet.running ≠ 0 →
      virtionet_init vnet rxBase txBase negOk vqOk allocRxOk allocTxOk =
        (0, vnet, [])) := by
  constructor
  · intro h
    simp [virtionet_term, h]
  · intro h
    simp [virtionet_init, h]

/-- Witness for C10: a stopped instance is untouched by `term`, a
running instance is untouched by `init`. -/
theorem C10_running_flag_guard_witness :
    virtionet_term vnetW = (0, vnetW, []) ∧
    virtionet_init { vnetW with running := 1 } 0 0 true true true true =
      (0, { vnetW with running := 1 }, []) :=
  ⟨(C10_running_flag_guard vnetW 0 0 true true true true).1 rfl,
   (C10_running_flag_guard { vnetW with running := 1 } 0 0 true true true true).2
     (by decide)⟩

/-- A concrete block device used by concrete evaluations: legacy, host
advertises nothing, capacity 1000, 512-byte sectors, queue size 6. -/
def devB : BlkDevice := ⟨0, 0, ⟨1000, 512⟩, vq0 6⟩

/-- The block device of the C1 failing input: as `devB` but the
available index has already advanced to 6 (one full trip of the
queue-size-6 ring, e.g. after six prior submissions). -/
def devC1 : BlkDevice := ⟨0, 0, ⟨1000, 512⟩, { vq0 6 with availIdx := 6 }⟩

/-- The net instance of the C1 failing input: TX queue size 6 with
`avail.idx = 6`. -/
def vnetC1 : VirtioNet := { vnetW with tx := { vq0 6 with availIdx := 6 } }

/-- Claim C1 (evaluation at the failing input): with queue size 6 and
`avail.idx = 6`, an accepted `virtioblk_transfer` stores
`(6 mod 6) + 1 = 1` into `avail.idx` instead of the free-running
`(6 + 1) mod 2^16 = 7` the claim states, because line 146 reduces the
loaded `avail->idx` modulo the queue size; `virtionet_xmit` on the same
state stores 7 as the claim states. -/
theorem C1_blk_avail_idx_wraps_at_queue_size :
    (virtioblk_transfer devC1 0 1 0 0 0 0).dev.vq.availIdx = 1 ∧
    (1 : Nat) ≠ (6 + 1) % 2 ^ 16 ∧
    (virtionet_xmit vnetC1 64).2.1.tx.availIdx = (6 + 1) % 2 ^ 16 := by
  refine ⟨by decide, by decide, by decide⟩

/-- Claim C2 (counterexample): in an accepted `virtioblk_transfer`
submission there is no barrier between the `avail.idx` store and
`queue_notify` - the scan for the claim's second barrier fails on the
concrete trace - so the claim is false for the block path. -/
theorem C2_counterexample_no_second_barrier_blk :
    idxFencedBeforeNotify (virtioblk_transfer devB 0 1 0 0 0 0).trace false = false ∧
    (virtioblk_transfer devB 0 1 0 0 0 0).trace ≠ [] := by
  refine ⟨by decide, by decide⟩

/-- Claim C2 (amended): in every accepted block transfer a full barrier
separates the descriptor and avail-ring writes from the `avail.idx`
store, but no barrier separates the `avail.idx` store from
`queue_notify`; in every accepted net transmit both barriers are
issued. -/
theorem C2_amended_barriers (dev : BlkDevice)
    (blocknum cnt type hdr_pa buf_pa status_pa : Nat)
    (vnet : VirtioNet) (len : Nat)
    (hcap : ¬ u64 (u64 blocknum + u64 cnt + (2 ^ 64 - 1)) > u64 dev.cfg.capacity)
    (hblk : u32 dev.cfg.blk_size % DEFAULT_SECTOR_SIZE = 0)
    (hlen : len ≤ BUFFER_ENTRY_SIZE) :
    writesFencedBeforeIdx
      (virtioblk_transfer dev blocknum cnt type hdr_pa buf_pa status_pa).trace false = true ∧
    idxFencedBeforeNotify
      (virtioblk_transfer dev blocknum cnt type hdr_pa buf_pa status_pa).trace false = false ∧
    writesFencedBeforeIdx (virtionet_xmit vnet len).2.2 false = true ∧
    idxFencedBeforeNotify (virtionet_xmit vnet len).2.2 false = true := by
  have hx : ¬ len > BUFFER_ENTRY_SIZE := by omega
  have hb2 : ¬ u32 dev.cfg.blk_size % DEFAULT_SECTOR_SIZE ≠ 0 := fun hne => hne hblk
  refine ⟨?_, ?_, ?_, ?_⟩
  · unfold virtioblk_transfer
    rw [if_neg hcap, if_neg hb2]
    simp [writesFencedBeforeIdx]
  · unfold virtioblk_transfer
    rw [if_neg hcap, if_neg hb2]
    simp [idxFencedBeforeNotify]
  · unfold virtionet_xmit
    rw [if_neg hx]
    simp [writesFencedBeforeIdx]
  · unfold virtionet_xmit
    rw [if_neg hx]
    simp [idxFencedBeforeNotify]

/-- Witness for C2 (amended) at a concrete accepted block transfer and
a concrete 64-byte transmit. -/
theorem C2_amended_barriers_witness :
    writesFencedBeforeIdx (virtioblk_transfer devB 2 1 1 0 0 0).trace false = true ∧
    idxFencedBeforeNotify (virtioblk_transfer devB 2 1 1 0 0 0).trace false = false ∧
    writesFencedBeforeIdx (virtionet_xmit vnetW 64).2.2 false = true ∧
    idxFencedBeforeNotify (virtionet_xmit vnetW 64).2.2 false = true :=
  C2_amended_barriers devB 2 1 1 0 0 0 vnetW 64 (by decide) (by decide) (by decide)

/-- Status writes distribute over trace concatenation. -/
@[simp] theorem statusTrace_append (s t : List Event) :
    statusTrace (s ++ t) = statusTrace s ++ statusTrace t :=
  List.filterMap_append s t _

/-- The empty trace has no status writes. -/
@[simp] theorem statusTrace_nil : statusTrace [] = [] := rfl

/-- A status write is kept by `statusTrace`. -/
@[simp] theorem statusTrace_cons_statusWrite (v : Nat) (t : List Event) :
    statusTrace (Event.statusWrite v :: t) = v :: statusTrace t := rfl

/-- A descriptor write is dropped by `statusTrace`. -/
@[simp] theorem statusTrace_cons_descWrite (q s : Nat) (t : List Event) :
    statusTrace (Event.descWrite q s :: t) = statusTrace t := rfl

/-- An avail-ring write is dropped by `statusTrace`. -/
@[simp] theorem statusTrace_cons_ringWrite (q s v : Nat) (t : List Event) :
    statusTrace (Event.ringWrite q s v :: t) = statusTrace t := rfl

/-- A barrier is dropped by `statusTrace`. -/
@[simp] theorem statusTrace_cons_barrier (t : List Event) :
    statusTrace (Event.barrier :: t) = statusTrace t := rfl

/-- An `avail.idx` store is dropped by `statusTrace`. -/
@[simp] theorem statusTrace_cons_idxWrite (q v : Nat) (t : List Event) :
    statusTrace (Event.idxWrite q v :: t) = statusTrace t := rfl

/-- A notification is dropped by `statusTrace`. -/
@[simp] theorem statusTrace_cons_notify (q : Nat) (t : List Event) :
    statusTrace (Event.notify q :: t) = statusTrace t := rfl

/-- A buffer write is dropped by `statusTrace`. -/
@[simp] theorem statusTrace_cons_bufWrite (q : Nat) (t : List Event) :
    statusTrace (Event.bufWrite q :: t) = statusTrace t := rfl

/-- A queue-ready write is dropped by `statusTrace`. -/
@[simp] theorem statusTrace_cons_ready (q : Nat) (t : List Event) :
    statusTrace (Event.ready q :: t) = statusTrace t := rfl

/-- The RX pre-post loop writes no device status. -/
@[simp] theorem statusTrace_rxPrepostTrace (n : Nat) :
    statusTrace (rxPrepostTrace n) = [] := by
  induction n with
  | zero => rfl
  | succ n ih => rw [rxPrepostTrace, statusTrace_append, ih]; rfl

/-- Claim C3 (counterexample): a successful legacy (non-VERSION_1)
initialization of the net driver writes the status trajectory
0, 1, 3, 15 - the final write has the FEATURES_OK bit (8) set, because
`virtionet_init` ORs `DRIVER_OK | FEATURES_OK` into the status
unconditionally (src/virtio-blk.c line 446) - refuting the claim that
no status value written during a successful legacy initialization has
bit 8 set. -/
theorem C3_counterexample_net_legacy_writes_features_ok :
    statusTrace (virtionet_open 0 [2, 202, 254, 186, 190, 1] (vq0 6) (vq0 6) 0 0
      true true true true).2 = [0, 1, 3, 15] ∧
    (15 : Nat) &&& VIRTIO_STAT_FEATURES_OK ≠ 0 := by
  refine ⟨by decide, by decide⟩

/-- Claim C3 (amended): for every successful legacy (non-VERSION_1)
initialization, the block driver writes exactly the status trajectory
0, 1, 3, 7 (so no write has the FEATURES_OK bit set), while the net
driver writes 0, 1, 3, 15: its final status write sets FEATURES_OK
together with DRIVER_OK even on the legacy path. -/
theorem C3_amended_legacy_status_trajectories
    (bdev : BlkDevice) (negOk : Bool)
    (hbl : bdev.features.testBit VIRTIO_F_VERSION_1_BIT = false)
    (features : Nat) (macCfg : List Nat) (rx tx : Vq) (rxBase txBase : Nat)
    (hnl : features.testBit VIRTIO_F_VERSION_1_BIT = false) :
    statusTrace (virtioblk_init bdev negOk true).trace = [0, 1, 3, 7] ∧
    statusTrace (virtionet_open features macCfg rx tx rxBase txBase
      true true true true).2 = [0, 1, 3, 15] := by
  constructor
  · unfold virtioblk_init
    rw [hbl]
    simp [VIRTIO_STAT_ACKNOWLEDGE, VIRTIO_STAT_DRIVER, VIRTIO_STAT_DRIVER_OK]
  · unfold virtionet_open virtionet_init virtionet_init_tail
    simp [hnl, VIRTIO_STAT_ACKNOWLEDGE, VIRTIO_STAT_DRIVER, VIRTIO_STAT_DRIVER_OK,
      VIRTIO_STAT_FEATURES_OK]

/-- Witness for C3 (amended) at concrete legacy block and net devices. -/
theorem C3_amended_legacy_status_trajectories_witness :
    statusTrace (virtioblk_init devB true true).trace = [0, 1, 3, 7] ∧
    statusTrace (virtionet_open 2 [2, 202, 254, 186, 190, 1] (vq0 6) (vq0 6) 0 0
      true true true true).2 = [0, 1, 3, 15] :=
  C3_amended_legacy_status_trajectories devB true (by decide)
    2 [2, 202, 254, 186, 190, 1] (vq0 6) (vq0 6) 0 0 (by decide)

/-- The block device of the C6 failing scenario: legacy, host advertises
`BLK_SIZE`, configured `blk_size = 513` (not a multiple of 512). -/
def devC6 : BlkDevice := ⟨0, 2 ^ 6, ⟨100, 513⟩, vq0 6⟩

/-- Claim C6 (counterexample): `virtioblk_init` on a device configured
with the unaligned `blk_size = 513` returns 513 - a sector size, not a
failure - and writes the normal success status trajectory with no
FAILED bit, refuting the claim that init fails whenever
`blk_size % 512 != 0`. -/
theorem C6_counterexample_init_accepts_unaligned_blk_size :
    (virtioblk_init devC6 true true).ret = 513 ∧
    (513 : Nat) % 512 ≠ 0 ∧
    statusTrace (virtioblk_init devC6 true true).trace = [0, 1, 3, 7] ∧
    (∀ v ∈ statusTrace (virtioblk_init devC6 true true).trace,
      v &&& VIRTIO_STAT_FAILED = 0) := by
  refine ⟨by decide, by decide, by decide, by decide⟩

/-- Claim C6 (amended): `virtioblk_init` performs no alignment check on
`blk_size`: on every successful initialization it returns the
configured `blk_size` when the host feature word advertises `BLK_SIZE`
(the default 512 otherwise), never writing FAILED, whatever
`blk_size mod 512` is; the `blk_size % 512` check lives in
`virtioblk_transfer`, which rejects the transfer returning 0 with the
device state untouched (no FAILED transition). -/
theorem C6_amended_alignment_checked_in_transfer_only
    (dev : BlkDevice) (negOk : Bool)
    (hsucc : dev.features.testBit VIRTIO_F_VERSION_1_BIT = false ∨ negOk = true) :
    ((virtioblk_init dev negOk true).ret =
      (if dev.hostFeatures.testBit VIRTIO_BLK_F_BLK_SIZE_BIT then u32 dev.cfg.blk_size
        else DEFAULT_SECTOR_SIZE)) ∧
    (∀ v ∈ statusTrace (virtioblk_init dev negOk true).trace,
      v &&& VIRTIO_STAT_FAILED = 0) ∧
    (∀ blocknum cnt type hdr_pa buf_pa status_pa : Nat,
      ¬ u64 (u64 blocknum + u64 cnt + (2 ^ 64 - 1)) > u64 dev.cfg.capacity →
      u32 dev.cfg.blk_size % DEFAULT_SECTOR_SIZE ≠ 0 →
      virtioblk_transfer dev blocknum cnt type hdr_pa buf_pa status_pa =
        ⟨0, none, dev, []⟩) := by
  have htr : ∀ blocknum cnt type hdr_pa buf_pa status_pa : Nat,
      ¬ u64 (u64 blocknum + u64 cnt + (2 ^ 64 - 1)) > u64 dev.cfg.capacity →
      u32 dev.cfg.blk_size % DEFAULT_SECTOR_SIZE ≠ 0 →
      virtioblk_transfer dev blocknum cnt type hdr_pa buf_pa status_pa =
        ⟨0, none, dev, []⟩ := by
    intro b c ty hp bp sp hcap hmis
    unfold virtioblk_transfer
    rw [if_neg hcap, if_pos hmis]
  refine ⟨?_, ?_, htr⟩ <;>
    rcases hsucc with hleg | hneg
  · unfold virtioblk_init
    rw [hleg]
    simp
  · subst hneg
    cases h32 : dev.features.testBit VIRTIO_F_VERSION_1_BIT <;>
      · unfold virtioblk_init
        rw [h32]
        simp
  · unfold virtioblk_init
    rw [hleg]
    simp [VIRTIO_STAT_ACKNOWLEDGE, VIRTIO_STAT_DRIVER, VIRTIO_STAT_DRIVER_OK]
    decide
  · subst hneg
    cases h32 : dev.features.testBit VIRTIO_F_VERSION_1_BIT <;>
      · unfold virtioblk_init
        rw [h32]
        simp [VIRTIO_STAT_ACKNOWLEDGE, VIRTIO_STAT_DRIVER, VIRTIO_STAT_DRIVER_OK,
          VIRTIO_STAT_FEATURES_OK]
        decide

/-- Witness for C6 (amended) at the concrete unaligned device. -/
theorem C6_amended_alignment_checked_in_transfer_only_witness :
    ((virtioblk_init devC6 true true).ret =
      (if devC6.hostFeatures.testBit VIRTIO_BLK_F_BLK_SIZE_BIT then u32 devC6.cfg.blk_size
        else DEFAULT_SECTOR_SIZE)) ∧
    (∀ v ∈ statusTrace (virtioblk_init devC6 true true).trace,
      v &&& VIRTIO_STAT_FAILED = 0) ∧
    (∀ blocknum cnt type hdr_pa buf_pa status_pa : Nat,
      ¬ u64 (u64 blocknum + u64 cnt + (2 ^ 64 - 1)) > u64 devC6.cfg.capacity →
      u32 devC6.cfg.blk_size % DEFAULT_SECTOR_SIZE ≠ 0 →
      virtioblk_transfer devC6 blocknum cnt type hdr_pa buf_pa status_pa =
        ⟨0, none, devC6, []⟩) :=
  C6_amended_alignment_checked_in_transfer_only devC6 true (Or.inr rfl)

/-- Both branches of `fill_blk_hdr` store the truncated values; the
branch only picks the recorded byte order. -/
theorem fill_blk_hdr_eq (b : Bool) (t i s : Nat) :
    fill_blk_hdr b t i s = ⟨u32 t, u32 s, b⟩ := by
  cases b <;> rfl

/-- The block device of the C7 failing input: modern (`VERSION_1`
negotiated, feature word `2 ^ 32`), capacity `2 ^ 40`, 512-byte
sectors. -/
def devC7 : BlkDevice := ⟨2 ^ 32, 0, ⟨2 ^ 40, 512⟩, vq0 6⟩

/-- The block device of the second C7 failing input: as `devC7` but
configured with `blk_size = 2 ^ 31`, a multiple of 512 whose `int`
value is negative. -/
def devC7b : BlkDevice := ⟨2 ^ 32, 0, ⟨2 ^ 40, 2 ^ 31⟩, vq0 6⟩

/-- Claim C7 (counterexample): two accepted transfers refute the
claimed 64-bit sector `start_block * blk_size / 512`.  At
`start_block = 2 ^ 32` with 512-byte sectors the header receives
sector 0, not `2 ^ 32`, because `fill_blk_hdr` takes the sector
through a `uint32_t` parameter.  At `start_block = 1` with
`blk_size = 2 ^ 31` (a negative `int`, sign-extended into the
`uint64_t` product) the header receives sector
`4290772992 = 0xFFC00000`, not the claimed `2 ^ 31 / 512 = 2 ^ 22`. -/
theorem C7_counterexample_sector_truncated_to_32_bits :
    (virtioblk_transfer devC7 (2 ^ 32) 1 0 0 0 0).hdr = some ⟨0, 0, true⟩ ∧
    (2 ^ 32 : Nat) * 512 / 512 = 2 ^ 32 ∧
    (0 : Nat) ≠ 2 ^ 32 ∧
    (virtioblk_transfer devC7b 1 1 0 0 0 0).hdr = some ⟨0, 4290772992, true⟩ ∧
    (1 : Nat) * 2 ^ 31 / 512 = 2 ^ 22 ∧
    (4290772992 : Nat) ≠ 2 ^ 22 := by
  refine ⟨by decide, by decide, by decide, by decide, by decide, by decide⟩

/-- Claim C7 (amended): for every accepted block transfer the header
has `type` equal to the requested 32-bit op and `sector` equal to the
32-bit truncation of `start_block * blk_size / 512` computed in
`uint64_t` with `blk_size` converted from the signed `int` (so
sign-extended when the configured value is at or above `2 ^ 31`): the
64-bit quotient is truncated by the `uint32_t` sector parameter of
`fill_blk_hdr` and zero-extended to the 64-bit field.  The fields are
little-endian encoded exactly when `dev->features` is nonzero (the
call passes the whole feature word as the `is_modern` flag, so any
nonzero feature word selects little-endian, not only `VERSION_1`). -/
theorem C7_amended_header_fields (dev : BlkDevice)
    (blocknum cnt type hdr_pa buf_pa status_pa : Nat)
    (hcap : ¬ u64 (u64 blocknum + u64 cnt + (2 ^ 64 - 1)) > u64 dev.cfg.capacity)
    (hblk : u32 dev.cfg.blk_size % DEFAULT_SECTOR_SIZE = 0) :
    (virtioblk_transfer dev blocknum cnt type hdr_pa buf_pa status_pa).hdr =
      some ⟨u32 type,
            u32 (u64 (u64 blocknum * sext32_64 (u32 dev.cfg.blk_size)) /
              DEFAULT_SECTOR_SIZE),
            dev.features != 0⟩ := by
  have hb2 : ¬ u32 dev.cfg.blk_size % DEFAULT_SECTOR_SIZE ≠ 0 := fun hne => hne hblk
  have hu : ∀ x : Nat, u32 (u32 x) = u32 x := fun x => Nat.mod_mod_of_dvd x dvd_rfl
  unfold virtioblk_transfer
  rw [if_neg hcap, if_neg hb2]
  simp [fill_blk_hdr_eq, hu]

/-- Witness for C7 (amended) at a concrete accepted transfer on the
negative-`blk_size` device. -/
theorem C7_amended_header_fields_witness :
    (virtioblk_transfer devC7b 1 1 1 0 0 0).hdr =
      some ⟨u32 1,
            u32 (u64 (u64 1 * sext32_64 (u32 devC7b.cfg.blk_size)) /
              DEFAULT_SECTOR_SIZE),
            devC7b.features != 0⟩ :=
  C7_amended_header_fields devC7b 1 1 1 0 0 0 (by decide) (by decide)

/-- Reading back the middle entry of the three consecutive descriptor
writes of a chain. -/
theorem set3_getElem_mid (l : List Desc) (i : Nat) (A B C : Desc)
    (h : i + 2 < l.length) :
    (((l.set i A).set (i + 1) B).set (i + 2) C)[i + 1]? = some B := by
  rw [List.getElem?_set_ne (by omega)]
  rw [List.getElem?_set_eq_of_lt]
  rw [List.length_set]
  omega

/-- Claim C8 (counterexample): for an accepted FLUSH transfer (op = 4)
the data descriptor's flags are NEXT|WRITE = 3, because the code tests
`type & 1` (op parity), not `op == READ`; the claim's formula
`NEXT | (op == READ ? WRITE : 0)` gives NEXT = 1 for FLUSH. -/
theorem C8_counterexample_flush_gets_write_flag :
    ((virtioblk_transfer devB 0 1 4 0 0 0).dev.vq.desc.getD 1 default).flags = 3 ∧
    (3 : Nat) ≠ VRING_DESC_F_NEXT ||| 0 := by
  refine ⟨by decide, by decide⟩

/-- Claim C8 (amended): for every accepted block transfer on a queue
whose size is a positive multiple of 3 (the chain-allocation policy's
requirement), the data descriptor at slot `id + 1` has the buffer
address, length `(count * blk_size) mod 2 ^ 32` (the product truncated
to the 32-bit length field), link to `id + 2`, and flags
`NEXT | WRITE` when the op is even (READ = 0 and FLUSH = 4) and `NEXT`
alone when the op is odd (WRITE = 1): the code tests `type & 1`, not
`op == READ`. -/
theorem C8_amended_data_descriptor (dev : BlkDevice)
    (blocknum cnt type hdr_pa buf_pa status_pa : Nat)
    (hcap : ¬ u64 (u64 blocknum + u64 cnt + (2 ^ 64 - 1)) > u64 dev.cfg.capacity)
    (hblk : u32 dev.cfg.blk_size % DEFAULT_SECTOR_SIZE = 0)
    (hlen : dev.vq.desc.length = dev.vq.size)
    (hmul : dev.vq.size % 3 = 0) (hpos : 0 < dev.vq.size) :
    (virtioblk_transfer dev blocknum cnt type hdr_pa buf_pa status_pa).dev.vq.desc[
        ((u16 dev.vq.availIdx % dev.vq.size) * 3) % dev.vq.size + 1]? =
      some ⟨u64 buf_pa, u32 (u64 cnt * u32 dev.cfg.blk_size),
            u16 (VRING_DESC_F_NEXT +
              if u32 type % 2 = 1 then 0 else VRING_DESC_F_WRITE),
            u16 (((u16 dev.vq.availIdx % dev.vq.size) * 3) % dev.vq.size + 2)⟩ ∧
    u16 (VRING_DESC_F_NEXT + if u32 type % 2 = 1 then 0 else VRING_DESC_F_WRITE) =
      (if u32 type % 2 = 1 then VRING_DESC_F_NEXT
        else VRING_DESC_F_NEXT ||| VRING_DESC_F_WRITE) := by
  have hb2 : ¬ u32 dev.cfg.blk_size % DEFAULT_SECTOR_SIZE ≠ 0 := fun hne => hne hblk
  have hdvdQ : (3 : Nat) ∣ dev.vq.size := Nat.dvd_of_mod_eq_zero hmul
  have h3 : (3 : Nat) ∣ ((u16 dev.vq.availIdx % dev.vq.size) * 3) % dev.vq.size :=
    (Nat.dvd_mod_iff hdvdQ).mpr (dvd_mul_left 3 _)
  have hmod : ((u16 dev.vq.availIdx % dev.vq.size) * 3) % dev.vq.size < dev.vq.size :=
    Nat.mod_lt _ hpos
  have hid : ((u16 dev.vq.availIdx % dev.vq.size) * 3) % dev.vq.size + 2 <
      dev.vq.desc.length := by
    rw [hlen]
    omega
  constructor
  · unfold virtioblk_transfer
    rw [if_neg hcap, if_neg hb2]
    exact set3_getElem_mid _ _ _ _ _ hid
  · by_cases h : u32 type % 2 = 1 <;>
      simp [h, u16, VRING_DESC_F_NEXT, VRING_DESC_F_WRITE]

/-- Witness for C8 (amended) at a concrete accepted FLUSH transfer. -/
theorem C8_amended_data_descriptor_witness :
    (virtioblk_transfer devB 0 1 4 0 0 0).dev.vq.desc[
        ((u16 devB.vq.availIdx % devB.vq.size) * 3) % devB.vq.size + 1]? =
      some ⟨u64 0, u32 (u64 1 * u32 devB.cfg.blk_size),
            u16 (VRING_DESC_F_NEXT +
              if u32 4 % 2 = 1 then 0 else VRING_DESC_F_WRITE),
            u16 (((u16 devB.vq.availIdx % devB.vq.size) * 3) % devB.vq.size + 2)⟩ ∧
    u16 (VRING_DESC_F_NEXT + if u32 4 % 2 = 1 then 0 else VRING_DESC_F_WRITE) =
      (if u32 4 % 2 = 1 then VRING_DESC_F_NEXT
        else VRING_DESC_F_NEXT ||| VRING_DESC_F_WRITE) :=
  C8_amended_data_descriptor devB 0 1 4 0 0 0 (by decide) (by decide)
    (by decide) (by decide) (by decide)

/-- A concrete net instance with one pending RX completion: queue size
4, used entry 0 holds id 2 (the head of the second chain) and length
10 + 64. -/
def vnetC4 : VirtioNet :=
  { features := 0, running := 1, macCfg := [], mac := [],
    rx := { size := 4,
            desc := [⟨100, 10, 3, 1⟩, ⟨110, 1526, 2, 0⟩, ⟨200, 10, 3, 3⟩, ⟨210, 1526, 2, 0⟩],
            availFlags := 0, availIdx := 2, availRing := [0, 2, 0, 0],
            usedIdx := 1, usedRing := [(2, 74), (0, 0), (0, 0), (0, 0)], bufMem := 0 },
    tx := vq0 4, last_rx_idx := 0, last_tx_idx := 0, net_hdr_size := 10 }

/-- Claim C4 (counterexample): receiving the pending used entry with
`id_raw = 2` re-posts available-ring entry 2 (the chain head `id_raw`
itself, computed as `((id_raw + 1) mod Q) - 1`), not the claimed
`id_raw - 1 = 1`. -/
theorem C4_counterexample_replenish_not_id_raw_minus_one :
    (virtionet_receive vnetC4 2048).vnet.rx.availRing.getD 2 99 = 2 ∧
    (2 : Nat) ≠ 2 - 1 := by
  refine ⟨by decide, by decide⟩

/-- Claim C4 (amended): for every `virtionet_receive` call that finds a
pending used entry with id field `id_raw` (with `id_raw + 1` within the
queue size, as holds for every id the RX pre-post loop publishes), the
payload is copied from the address of descriptor `(id_raw + 1) mod Q`,
and the replenishing available-ring entry - written before the
`avail.idx` increment and the RX notify - is `id_raw` itself, the
header descriptor heading the chain (the code computes
`((id_raw + 1) mod Q) - 1` in 32-bit arithmetic and truncates it to 16
bits, which equals `id_raw`, not `id_raw - 1`). -/
theorem C4_amended_receive_repost (vnet : VirtioNet) (maxlen : Nat)
    (hpend : vnet.last_rx_idx ≠ u16 vnet.rx.usedIdx)
    (hpos : 0 < vnet.rx.size) (hQ16 : vnet.rx.size ≤ 2 ^ 16)
    (hring : vnet.rx.availRing.length = vnet.rx.size)
    (hinr : (vnet.rx.usedRing.getD (vnet.last_rx_idx % vnet.rx.size) (0, 0)).1 + 1 <
      vnet.rx.size) :
    (virtionet_receive vnet maxlen).srcAddr =
      some ((vnet.rx.desc.getD
        (((vnet.rx.usedRing.getD (vnet.last_rx_idx % vnet.rx.size) (0, 0)).1 + 1)
          % vnet.rx.size) default).addr) ∧
    (virtionet_receive vnet maxlen).vnet.rx.availRing.getD
        (u16 vnet.rx.availIdx % vnet.rx.size) 0 =
      (vnet.rx.usedRing.getD (vnet.last_rx_idx % vnet.rx.size) (0, 0)).1 ∧
    (virtionet_receive vnet maxlen).trace =
      [Event.ringWrite VQ_RX (u16 vnet.rx.availIdx % vnet.rx.size)
        ((vnet.rx.usedRing.getD (vnet.last_rx_idx % vnet.rx.size) (0, 0)).1),
       Event.barrier,
       Event.idxWrite VQ_RX (u16 (u16 vnet.rx.availIdx + 1)),
       Event.notify VQ_RX] := by
  have hid16 : (vnet.rx.usedRing.getD (vnet.last_rx_idx % vnet.rx.size) (0, 0)).1 <
      2 ^ 16 := by omega
  have hid32 : (vnet.rx.usedRing.getD (vnet.last_rx_idx % vnet.rx.size) (0, 0)).1 <
      2 ^ 32 := lt_trans hid16 (by norm_num)
  have hu : u32 (vnet.rx.usedRing.getD (vnet.last_rx_idx % vnet.rx.size) (0, 0)).1 =
      (vnet.rx.usedRing.getD (vnet.last_rx_idx % vnet.rx.size) (0, 0)).1 :=
    Nat.mod_eq_of_lt hid32
  have hmodid :
      ((vnet.rx.usedRing.getD (vnet.last_rx_idx % vnet.rx.size) (0, 0)).1 + 1)
        % vnet.rx.size =
      (vnet.rx.usedRing.getD (vnet.last_rx_idx % vnet.rx.size) (0, 0)).1 + 1 :=
    Nat.mod_eq_of_lt hinr
  have hrepl :
      u16 (u32 ((vnet.rx.usedRing.getD (vnet.last_rx_idx % vnet.rx.size) (0, 0)).1 + 1 +
        (2 ^ 32 - 1))) =
      (vnet.rx.usedRing.getD (vnet.last_rx_idx % vnet.rx.size) (0, 0)).1 := by
    simp only [u16, u32]
    omega
  have hslot : u16 vnet.rx.availIdx % vnet.rx.size < vnet.rx.availRing.length := by
    rw [hring]
    exact Nat.mod_lt _ hpos
  unfold virtionet_receive
  rw [if_neg hpend]
  refine ⟨?_, ?_, ?_⟩
  · simp only [hu, hmodid]
  · simp only [hu, hmodid, hrepl]
    rw [List.getD_eq_getElem?_getD, List.getElem?_set_eq_of_lt _ hslot]
    rfl
  · simp only [hu, hmodid, hrepl]

/-- Witness for C4 (amended) at the concrete pending completion with
`id_raw = 2`. -/
theorem C4_amended_receive_repost_witness :
    (virtionet_receive vnetC4 2048).srcAddr =
      some ((vnetC4.rx.desc.getD
        (((vnetC4.rx.usedRing.getD (vnetC4.last_rx_idx % vnetC4.rx.size) (0, 0)).1 + 1)
          % vnetC4.rx.size) default).addr) ∧
    (virtionet_receive vnetC4 2048).vnet.rx.availRing.getD
        (u16 vnetC4.rx.availIdx % vnetC4.rx.size) 0 =
      (vnetC4.rx.usedRing.getD (vnetC4.last_rx_idx % vnetC4.rx.size) (0, 0)).1 ∧
    (virtionet_receive vnetC4 2048).trace =
      [Event.ringWrite VQ_RX (u16 vnetC4.rx.availIdx % vnetC4.rx.size)
        ((vnetC4.rx.usedRing.getD (vnetC4.last_rx_idx % vnetC4.rx.size) (0, 0)).1),
       Event.barrier,
       Event.idxWrite VQ_RX (u16 (u16 vnetC4.rx.availIdx + 1)),
       Event.notify VQ_RX] :=
  C4_amended_receive_repost vnetC4 2048 (by decide) (by decide) (by decide)
    (by decide) (by decide)
